import Mathlib

/-!
Verification of the visitor-counter service in src/app.py (Flask + SQLite).

The embedding models the SQLite database state reachable by this app as the
presence of the `visitors` table together with the contents of its single
id = 1 row (the schema's PRIMARY KEY plus CHECK(id = 1) allow at most one
row).  Store operations are translated statement-by-statement from the
Python functions; sqlite exceptions are modelled by an explicit
fault-injection record saying which sqlite step of a call raises, plus the
data-dependent errors (missing table, missing row) that the code itself can
hit.  Route handlers translate store outcomes into status codes and JSON
bodies exactly as the Python handlers do.
-/

/-- SQLite state for the app: whether the `visitors` table exists, and the
count held by the single id = 1 row (`none` when the row is absent). -/
structure DB where
  tableExists : Bool
  row : Option Int
deriving DecidableEq, Repr

/-- Errors a store call can raise: a sqlite OperationalError injected at an
I/O step, the missing-table OperationalError, or the TypeError raised by
subscripting the `None` that `fetchone()` returns when the row is absent. -/
inductive StoreErr where
  | storage
  | noSuchTable
  | typeErr
deriving DecidableEq, Repr

/-- Fault injection for one store call: whether each sqlite step raises an
OperationalError (opening the connection, the UPDATE statement, the COMMIT,
the read-back SELECT).  The happy path is `noFaults`. -/
structure Faults where
  failConnect : Bool
  failUpdate : Bool
  failCommit : Bool
  failSelect : Bool
deriving DecidableEq, Repr

/-- The fault-free environment. -/
def noFaults : Faults := ⟨false, false, false, false⟩

deriving instance DecidableEq for Except

/-- Embeds `initialize_database` (src/app.py lines 48-65): CREATE TABLE IF
NOT EXISTS, then SELECT the id = 1 row and INSERT (1, 0) only when the
SELECT finds none.  The single-row Option representation reflects the
schema: id INTEGER PRIMARY KEY CHECK(id = 1) admits no second row. -/
def initialize_database (db : DB) : DB :=
  let db1 : DB := { db with tableExists := true }
  match db1.row with
  | none => { db1 with row := some 0 }
  | some _ => db1

/-- Embeds `increment_and_get_count` (src/app.py lines 68-75).  The code
runs UPDATE visitors SET count = count + 1 WHERE id = 1, then
`conn.commit()`, then a separate SELECT whose fetched row is subscripted.
A fault at or before the commit rolls the transaction back (the sqlite3
connection context manager), leaving the database unchanged; a fault at the
read-back SELECT occurs after the commit, so the increment is already
durable.  With the row absent, the UPDATE matches no row and the SELECT
fetches `None`, whose subscripting raises TypeError.  Returns the resulting
database and the call's outcome. -/
def increment_and_get_count (f : Faults) (db : DB) : DB × Except StoreErr Int :=
  if f.failConnect then (db, .error .storage)
  else if db.tableExists = false then (db, .error .noSuchTable)
  else if f.failUpdate then (db, .error .storage)
  else if f.failCommit then (db, .error .storage)
  else
    let db1 : DB := { db with row := db.row.map (fun c => c + 1) }
    if f.failSelect then (db1, .error .storage)
    else
      match db1.row with
      | none => (db1, .error .typeErr)
      | some c => (db1, .ok c)

/-- Embeds `reset_count` (src/app.py lines 78-84): UPDATE visitors SET
count = 0 WHERE id = 1, commit, then return the literal 0 with no
read-back.  With the row absent the UPDATE matches no row and the function
still returns 0. -/
def reset_count (f : Faults) (db : DB) : DB × Except StoreErr Int :=
  if f.failConnect then (db, .error .storage)
  else if db.tableExists = false then (db, .error .noSuchTable)
  else if f.failUpdate then (db, .error .storage)
  else if f.failCommit then (db, .error .storage)
  else ({ db with row := db.row.map (fun _ => 0) }, .ok 0)

/-- JSON body of an API response: a count object or an error object. -/
inductive JsonBody where
  | count (n : Int)
  | error (msg : String)
deriving DecidableEq, Repr

/-- An API response: HTTP status code and JSON body. -/
structure ApiResp where
  status : Nat
  body : JsonBody
deriving DecidableEq, Repr

/-- Embeds the `get_visitors` handler (src/app.py lines 87-96): call
`increment_and_get_count` inside try/except; on success respond 200 with
the count, on any exception respond 500 with a generic error body. -/
def get_visitors (f : Faults) (db : DB) : DB × ApiResp :=
  match increment_and_get_count f db with
  | (db1, .ok c) => (db1, ⟨200, .count c⟩)
  | (db1, .error _) => (db1, ⟨500, .error "Unable to read visitor count"⟩)

/-- Embeds the `reset_visitors` handler (src/app.py lines 99-109): call
`reset_count` inside try/except; on success respond 200 with the returned
count, on any exception respond 500 with a generic error body. -/
def reset_visitors (f : Faults) (db : DB) : DB × ApiResp :=
  match reset_count f db with
  | (db1, .ok c) => (db1, ⟨200, .count c⟩)
  | (db1, .error _) => (db1, ⟨500, .error "Unable to reset visitor count"⟩)

/-- Stands for the constant `HOME_TEMPLATE` string (src/app.py lines
112-459), abridged: the 380 lines of dashboard markup are inert data whose
exact text no verified property depends on; what matters is that it is one
fixed string literal defined at module load. -/
def HOME_TEMPLATE : String :=
  "<!doctype html><html lang=en><head><meta charset=utf-8><title>Cloud Resume Visitor Counter</title></head><body>dashboard</body></html>"

/-- A rendered-page response: status, Content-Type header, body. -/
structure PageResp where
  status : Nat
  contentType : String
  body : String
deriving DecidableEq, Repr

/-- Embeds the `home` handler (src/app.py lines 475-481): build a response
from the constant template and set the Content-Type header.  The handler
takes the database state purely so the embedding can record that serving
the page neither reads nor writes it. -/
def home (db : DB) : DB × PageResp :=
  (db, { status := 200, contentType := "text/html; charset=utf-8", body := HOME_TEMPLATE })

/-- One store mutation issued through the API, with its fault injection. -/
inductive StoreOp where
  | inc (f : Faults)
  | reset (f : Faults)

/-- Resulting database state of one store operation. -/
def applyOp (db : DB) : StoreOp → DB
  | .inc f => (increment_and_get_count f db).1
  | .reset f => (reset_count f db).1

/-- Resulting database state of a sequence of store operations. -/
def runOps (db : DB) (ops : List StoreOp) : DB := ops.foldl applyOp db

/-- The state invariant of the spec's data model: the table exists, exactly
one counter row exists, and its count is non-negative. -/
def CounterInv (db : DB) : Prop :=
  db.tableExists = true ∧ ∃ c : Int, db.row = some c ∧ 0 ≤ c

/-- Step 1 of the end-to-end scenario: GET /api/visitors on a freshly
initialized store. -/
def scenarioStep1 : DB × ApiResp := get_visitors noFaults (initialize_database ⟨false, none⟩)

/-- Step 2: a second GET /api/visitors. -/
def scenarioStep2 : DB × ApiResp := get_visitors noFaults scenarioStep1.1

/-- Step 3: POST /api/reset. -/
def scenarioStep3 : DB × ApiResp := reset_visitors noFaults scenarioStep2.1

/-- Step 4: a final GET /api/visitors. -/
def scenarioStep4 : DB × ApiResp := get_visitors noFaults scenarioStep3.1

/-!
Concurrency model for N simultaneous `GET /api/visitors` handlers.

Inside `increment_and_get_count` the UPDATE transaction commits before the
read-back SELECT runs on the same connection, so one handler call consists
of two separate atomic storage events; between them, other handlers' UPDATE
transactions may commit (WAL mode serialises the writers but does not glue
a handler's write to its later read).  SQLite's row-level atomic
UPDATE count = count + 1 never loses an update, which the `upd` event
models; the read-back returns the committed count at the moment it runs,
which the `readBack` event models. -/

/-- One atomic storage event of caller `i`: its committed UPDATE
transaction, or its later read-back SELECT. -/
inductive Ev (n : Nat) where
  | upd (i : Fin n)
  | readBack (i : Fin n)
deriving DecidableEq, Repr

/-- Shared state during a concurrent run: the committed counter value and
the value each caller's read-back has fetched (`none` before it runs). -/
structure RunSt (n : Nat) where
  count : Nat
  results : Fin n → Option Nat

/-- Effect of one event: a committed UPDATE adds one to the stored count; a
read-back SELECT records the committed count as caller i's return value. -/
def stepEv {n : Nat} (s : RunSt n) : Ev n → RunSt n
  | .upd _ => { s with count := s.count + 1 }
  | .readBack i => { s with results := fun j => if j = i then some s.count else s.results j }

/-- Run a whole interleaving from initial stored value V, with no caller's
read-back yet performed. -/
def runSched {n : Nat} (V : Nat) (evs : List (Ev n)) : RunSt n :=
  evs.foldl stepEv { count := V, results := fun _ => none }

/-- The canonical event multiset: each of the n callers contributes exactly
one UPDATE and one read-back. -/
def allEvents (n : Nat) : List (Ev n) :=
  ((List.finRange n).map Ev.upd) ++ ((List.finRange n).map Ev.readBack)

/-- Valid interleavings: a permutation of the canonical event multiset in
which each caller's UPDATE precedes its own read-back (the handler performs
them in that order). -/
def ValidSched {n : Nat} (evs : List (Ev n)) : Prop :=
  evs.Perm (allEvents n) ∧ ∀ i : Fin n, [Ev.upd i, Ev.readBack i].Sublist evs

/-- The values returned to callers 0..n-1, in caller order. -/
def returnedVals {n : Nat} (s : RunSt n) : List (Option Nat) :=
  (List.finRange n).map s.results

/-- Whether an event is a committed UPDATE. -/
def isUpd {n : Nat} : Ev n → Bool
  | .upd _ => true
  | .readBack _ => false

/-- C1 counterexample interleaving: both callers' UPDATE transactions
commit before either read-back SELECT runs. -/
def overlapSched : List (Ev 2) :=
  [Ev.upd 0, Ev.upd 1, Ev.readBack 0, Ev.readBack 1]

theorem count_foldl_stepEv {n : Nat} (l : List (Ev n)) (s : RunSt n) :
    (l.foldl stepEv s).count = s.count + l.countP isUpd := by
  induction l generalizing s with
  | nil => simp
  | cons e t ih =>
    cases e with
    | upd i =>
      rw [List.foldl_cons, ih, List.countP_cons]
      simp [stepEv, isUpd]
      omega
    | readBack i =>
      rw [List.foldl_cons, ih, List.countP_cons]
      simp [stepEv, isUpd]

theorem countP_allEvents (n : Nat) : (allEvents n).countP isUpd = n := by
  rw [allEvents, List.countP_append, List.countP_map, List.countP_map]
  have h1 : List.countP (isUpd ∘ Ev.upd) (List.finRange n) = (List.finRange n).length := by
    apply List.countP_eq_length.mpr
    intro a _
    rfl
  have h2 : List.countP (isUpd ∘ Ev.readBack) (List.finRange n) = 0 := by
    apply List.countP_eq_zero.mpr
    intro a _
    simp [isUpd, Function.comp]
  rw [h1, h2, List.length_finRange]
  omega

theorem count_readBack_allEvents {n : Nat} (i : Fin n) :
    (allEvents n).count (Ev.readBack i) = 1 := by
  rw [allEvents, List.count_append]
  have h1 : ((List.finRange n).map Ev.upd).count (Ev.readBack i) = 0 := by
    apply List.count_eq_zero_of_not_mem
    simp
  have h2 : ((List.finRange n).map Ev.readBack).count (Ev.readBack i) = 1 := by
    rw [List.count_map_of_injective _ _ (fun a b h => by injection h)]
    exact List.count_eq_one_of_mem (List.nodup_finRange n) (List.mem_finRange i)
  rw [h1, h2]

theorem results_foldl_of_not_mem {n : Nat} {i : Fin n} (l : List (Ev n)) (s : RunSt n)
    (h : Ev.readBack i ∉ l) : (l.foldl stepEv s).results i = s.results i := by
  induction l generalizing s with
  | nil => rfl
  | cons e t ih =>
    rw [List.foldl_cons, ih _ (fun hm => h (List.mem_cons_of_mem _ hm))]
    cases e with
    | upd j => rfl
    | readBack j =>
      have hne : i ≠ j := fun hij => h (by rw [hij]; exact List.mem_cons_self _ _)
      simp [stepEv, hne]

theorem upd_mem_left {n : Nat} {i : Fin n} {l₁ l₂ : List (Ev n)}
    (hs : [Ev.upd i, Ev.readBack i].Sublist (l₁ ++ Ev.readBack i :: l₂))
    (hl₂ : Ev.readBack i ∉ l₂) : Ev.upd i ∈ l₁ := by
  rcases List.sublist_append_iff.mp hs with ⟨xs, ys, hxy, hx, hy⟩
  cases xs with
  | nil =>
    rw [List.nil_append] at hxy
    rw [← hxy] at hy
    cases hy with
    | cons _ h' => exact absurd (h'.subset (by simp)) hl₂
  | cons x xs' =>
    cases xs' with
    | nil =>
      have hxu : Ev.upd i = x := by
        have := congrArg (fun l => l.head?) hxy
        simpa using this
      rw [← hxu] at hx
      exact hx.subset (by simp)
    | cons y ys' =>
      have hxu : Ev.upd i = x := by
        have := congrArg (fun l => l.head?) hxy
        simpa using this
      rw [← hxu] at hx
      exact hx.subset (by simp)

/-- C1 (amended): for N concurrent `GET /api/visitors` calls against a
counter stored at V, every valid interleaving of the committed UPDATE
transactions and read-back SELECTs leaves the stored value at exactly V+N
(no lost update), and every caller receives some value in V+1..V+N; but
because the read-back runs after its own UPDATE has committed, the value a
caller receives counts every UPDATE committed up to that moment, so the
returned values need not be distinct. -/
theorem concurrent_get_visitors (n V : Nat) (evs : List (Ev n)) (h : ValidSched evs) :
    (runSched V evs).count = V + n ∧
    ∀ i : Fin n, ∃ m, (runSched V evs).results i = some m ∧ V + 1 ≤ m ∧ m ≤ V + n := by
  obtain ⟨hperm, hord⟩ := h
  have hcnt : evs.countP isUpd = n := by rw [hperm.countP_eq, countP_allEvents]
  refine ⟨?_, ?_⟩
  · rw [runSched, count_foldl_stepEv, hcnt]
  · intro i
    have hmem : Ev.readBack i ∈ evs := (hord i).subset (by simp)
    obtain ⟨l₁, l₂, hsplit⟩ := List.append_of_mem hmem
    have hcount1 : evs.count (Ev.readBack i) = 1 := by
      rw [hperm.count_eq, count_readBack_allEvents]
    rw [hsplit, List.count_append, List.count_cons_self] at hcount1
    have hl₂ : Ev.readBack i ∉ l₂ := List.count_eq_zero.mp (by omega)
    have hs' := hord i
    rw [hsplit] at hs'
    have hupd : Ev.upd i ∈ l₁ := upd_mem_left hs' hl₂
    have hres : (runSched V evs).results i =
        some ((l₁.foldl stepEv { count := V, results := fun _ => none }).count) := by
      rw [runSched, hsplit, List.foldl_append, List.foldl_cons,
        results_foldl_of_not_mem _ _ hl₂]
      simp [stepEv]
    refine ⟨_, hres, ?_, ?_⟩
    · rw [count_foldl_stepEv]
      have hpos : 0 < l₁.countP isUpd := List.countP_pos_iff.mpr ⟨_, hupd, rfl⟩
      show V + 1 ≤ V + l₁.countP isUpd
      omega
    · rw [count_foldl_stepEv]
      have hsub : l₁.Sublist evs := by rw [hsplit]; exact List.sublist_append_left _ _
      have hle : l₁.countP isUpd ≤ evs.countP isUpd := List.Sublist.countP_le isUpd hsub
      show V + l₁.countP isUpd ≤ V + n
      omega

/-- C1 as stated fails on the code: at V = 0, N = 2, the valid interleaving
`overlapSched` makes both callers' read-backs return 2, so the multiset of
returned values is {2, 2}, not {1, 2} — callers are not guaranteed distinct
values, because the read-back SELECT is a separate statement after the
UPDATE's commit. -/
theorem concurrent_get_visitors_cex :
    ValidSched overlapSched ∧
    returnedVals (runSched 0 overlapSched) = [some 2, some 2] ∧
    ¬ (returnedVals (runSched 0 overlapSched)).Perm [some 1, some 2] :=
  ⟨⟨by decide, by decide⟩, by decide, by decide⟩

/-- Witness: the amended C1 evaluated at one caller from value 0. -/
theorem concurrent_get_visitors_witness :
    (runSched 0 [Ev.upd (0 : Fin 1), Ev.readBack (0 : Fin 1)]).count = 0 + 1 ∧
    ∀ i : Fin 1, ∃ m, (runSched 0 [Ev.upd (0 : Fin 1), Ev.readBack (0 : Fin 1)]).results i = some m ∧
      0 + 1 ≤ m ∧ m ≤ 0 + 1 :=
  concurrent_get_visitors 1 0 [Ev.upd (0 : Fin 1), Ev.readBack (0 : Fin 1)] ⟨by decide, by decide⟩

theorem increment_ok_shape (f : Faults) (db : DB) (c : Int)
    (h : (increment_and_get_count f db).2 = Except.ok c) :
    db.row = some (c - 1) ∧ (increment_and_get_count f db).1.row = some c := by
  obtain ⟨fc, fu, fm, fs⟩ := f
  obtain ⟨t, r⟩ := db
  cases fc <;> cases fu <;> cases fm <;> cases fs <;> cases t <;> cases r <;>
    (simp_all [increment_and_get_count]; try omega)

theorem get_visitors_ok_shape (f : Faults) (db : DB) (n : Int)
    (h : (get_visitors f db).2 = ⟨200, .count n⟩) :
    db.row = some (n - 1) ∧ (get_visitors f db).1.row = some n := by
  rcases hx : increment_and_get_count f db with ⟨db1, r⟩
  cases r with
  | ok c =>
    have hshape := increment_ok_shape f db c (by rw [hx])
    rw [hx] at hshape
    simp only [get_visitors, hx] at h ⊢
    have hc : c = n := by simpa using h
    subst hc
    exact hshape
  | error e =>
    simp [get_visitors, hx] at h

/-- C2: the end-to-end scenario on a fresh store returns, in order,
200 count 1, 200 count 2, 200 count 0 and 200 count 1; and whenever
GET /api/visitors answers 200 with count n, the stored count moved from
n-1 to n (each successful call increments by exactly one and returns the
new value). -/
theorem visitors_scenario (f : Faults) (db : DB) (n : Int)
    (h : (get_visitors f db).2 = ⟨200, .count n⟩) :
    (scenarioStep1.2 = ⟨200, .count 1⟩ ∧ scenarioStep2.2 = ⟨200, .count 2⟩ ∧
     scenarioStep3.2 = ⟨200, .count 0⟩ ∧ scenarioStep4.2 = ⟨200, .count 1⟩) ∧
    (db.row = some (n - 1) ∧ (get_visitors f db).1.row = some n) := by
  refine ⟨⟨by decide, by decide, by decide, by decide⟩, get_visitors_ok_shape f db n h⟩

/-- Witness: C2 at the fault-free increment of a store holding 0. -/
theorem visitors_scenario_witness :
    (scenarioStep1.2 = ⟨200, .count 1⟩ ∧ scenarioStep2.2 = ⟨200, .count 2⟩ ∧
     scenarioStep3.2 = ⟨200, .count 0⟩ ∧ scenarioStep4.2 = ⟨200, .count 1⟩) ∧
    ((⟨true, some 0⟩ : DB).row = some (1 - 1) ∧
     (get_visitors noFaults ⟨true, some 0⟩).1.row = some 1) :=
  visitors_scenario noFaults ⟨true, some 0⟩ 1 (by decide)

/-- C3 (amended): on every store state whose counter row is present,
reset_count sets the stored count to 0 and returns 0, doing so twice in a
row yields 0 both times and leaves the count at 0, and an increment
performed right after a reset returns 1. -/
theorem reset_props (db : DB) (c : Int) (ht : db.tableExists = true)
    (hr : db.row = some c) :
    reset_count noFaults db = ({ db with row := some 0 }, .ok 0) ∧
    reset_count noFaults { db with row := some 0 } = ({ db with row := some 0 }, .ok 0) ∧
    (increment_and_get_count noFaults { db with row := some 0 }).2 = .ok 1 := by
  obtain ⟨t, r⟩ := db
  simp only at ht hr
  subst ht
  subst hr
  refine ⟨?_, ?_, ?_⟩ <;> simp [reset_count, increment_and_get_count, noFaults]

/-- C3 as stated ("for every store state") fails on the code: with the
table present but the counter row absent, reset_count returns 0 yet stores
no 0 (its UPDATE matched no row), and the increment performed right after
that reset raises instead of returning 1. -/
theorem reset_props_cex :
    (reset_count noFaults ⟨true, none⟩).2 = .ok 0 ∧
    (reset_count noFaults ⟨true, none⟩).1.row ≠ some 0 ∧
    (increment_and_get_count noFaults (reset_count noFaults ⟨true, none⟩).1).2 =
      .error .typeErr := by
  refine ⟨by decide, by decide, by decide⟩

/-- Witness: the amended C3 at a store holding 5. -/
theorem reset_props_witness :
    reset_count noFaults ⟨true, some 5⟩ = (⟨true, some 0⟩, .ok 0) ∧
    reset_count noFaults ⟨true, some 0⟩ = (⟨true, some 0⟩, .ok 0) ∧
    (increment_and_get_count noFaults ⟨true, some 0⟩).2 = .ok 1 :=
  reset_props ⟨true, some 5⟩ 5 rfl rfl

/-- C4: initialization is idempotent — run on a store already holding a
counter row with value k it only ensures the table exists and leaves the
count at k (the single-row representation cannot gain a second row), any
number of repeated runs does the same, the next increment after
re-initialization over persisted state returns k + 1 rather than 1, and on
an empty store it creates the table and seeds the one row with 0. -/
theorem initialize_props (db : DB) (k : Int) (h : db.row = some k) :
    initialize_database db = { db with tableExists := true } ∧
    (∀ m : Nat, Nat.iterate initialize_database (m + 1) db = { db with tableExists := true }) ∧
    (increment_and_get_count noFaults (initialize_database db)).2 = .ok (k + 1) ∧
    initialize_database ⟨false, none⟩ = ⟨true, some 0⟩ := by
  have h1 : initialize_database db = { db with tableExists := true } := by
    rw [initialize_database]
    simp [h]
  have hfix : initialize_database { db with tableExists := true } =
      { db with tableExists := true } := by
    rw [initialize_database]
    simp [h]
  refine ⟨h1, ?_, ?_, by decide⟩
  · intro m
    rw [Function.iterate_succ_apply, h1, Function.iterate_fixed hfix]
  · rw [h1]
    simp [increment_and_get_count, noFaults, h]

/-- Witness: C4 at a store persisted with count 3. -/
theorem initialize_props_witness :
    initialize_database ⟨true, some 3⟩ = ⟨true, some 3⟩ ∧
    (∀ m : Nat, Nat.iterate initialize_database (m + 1) ⟨true, some 3⟩ = ⟨true, some 3⟩) ∧
    (increment_and_get_count noFaults (initialize_database ⟨true, some 3⟩)).2 = .ok (3 + 1) ∧
    initialize_database ⟨false, none⟩ = ⟨true, some 0⟩ :=
  initialize_props ⟨true, some 3⟩ 3 rfl

theorem applyOp_state_cases (db : DB) (op : StoreOp) :
    applyOp db op = db ∨
    applyOp db op = { db with row := db.row.map (fun c => c + 1) } ∨
    applyOp db op = { db with row := db.row.map (fun _ => 0) } := by
  obtain ⟨t, r⟩ := db
  cases op with
  | inc f =>
    obtain ⟨fc, fu, fm, fs⟩ := f
    cases fc <;> cases fu <;> cases fm <;> cases fs <;> cases t <;> cases r <;>
      simp [applyOp, increment_and_get_count]
  | reset f =>
    obtain ⟨fc, fu, fm, fs⟩ := f
    cases fc <;> cases fu <;> cases fm <;> cases fs <;> cases t <;> cases r <;>
      simp [applyOp, reset_count]

theorem applyOp_preserves (db : DB) (op : StoreOp) (h : CounterInv db) :
    CounterInv (applyOp db op) := by
  obtain ⟨ht, c, hrow, hc⟩ := h
  rcases applyOp_state_cases db op with he | he | he <;> rw [he]
  · exact ⟨ht, c, hrow, hc⟩
  · exact ⟨ht, c + 1, by rw [hrow]; rfl, by omega⟩
  · exact ⟨ht, 0, by rw [hrow]; rfl, le_refl 0⟩

theorem runOps_preserves (ops : List StoreOp) (db : DB) (h : CounterInv db) :
    CounterInv (runOps db ops) := by
  induction ops generalizing db with
  | nil => exact h
  | cons op t ih => exact ih _ (applyOp_preserves db op h)

/-- C5: initialization from any sane persisted state (no row yet, or one
row with a non-negative count) establishes the invariant — the table and
exactly one counter row exist with count at least 0 — every sequence of
increment and reset calls preserves it, and a single operation either
leaves the row as it was, adds 1 to its count, or sets its count to 0. -/
theorem counter_invariant (db0 : DB)
    (h : db0.row = none ∨ ∃ c : Int, db0.row = some c ∧ 0 ≤ c) (ops : List StoreOp) :
    CounterInv (runOps (initialize_database db0) ops) ∧
    (∀ db : DB, ∀ op : StoreOp, CounterInv db →
      applyOp db op = db ∨
      (∃ c : Int, db.row = some c ∧ (applyOp db op).row = some (c + 1)) ∨
      (applyOp db op).row = some 0) := by
  constructor
  · apply runOps_preserves
    rcases h with hn | ⟨c, hc, hge⟩
    · have hinit : initialize_database db0 = ⟨true, some 0⟩ := by
        rw [initialize_database]
        simp [hn]
      rw [hinit]
      exact ⟨rfl, 0, rfl, le_refl 0⟩
    · have hinit : initialize_database db0 = { db0 with tableExists := true } := by
        rw [initialize_database]
        simp [hc]
      rw [hinit]
      exact ⟨rfl, c, hc, hge⟩
  · intro db op hdb
    obtain ⟨ht, c, hrow, hc⟩ := hdb
    rcases applyOp_state_cases db op with he | he | he
    · exact Or.inl he
    · refine Or.inr (Or.inl ⟨c, hrow, ?_⟩)
      rw [he, hrow]
      rfl
    · refine Or.inr (Or.inr ?_)
      rw [he, hrow]
      rfl

/-- Witness: C5 on the empty store with no operations. -/
theorem counter_invariant_witness :
    CounterInv (runOps (initialize_database ⟨false, none⟩) []) ∧
    (∀ db : DB, ∀ op : StoreOp, CounterInv db →
      applyOp db op = db ∨
      (∃ c : Int, db.row = some c ∧ (applyOp db op).row = some (c + 1)) ∨
      (applyOp db op).row = some 0) :=
  counter_invariant ⟨false, none⟩ (Or.inl rfl) []

/-- C6: the endpoint layer is a total translation of store outcomes —
GET /api/visitors answers 200 with the count exactly when the increment
succeeds and 500 with the fixed error body exactly when it raises,
POST /api/reset likewise with its own error body, a successful reset
always carries count 0, and every response has status 200 or 500 (each
handler catches every store exception; nothing propagates unhandled). -/
theorem route_error_mapping (f : Faults) (db : DB) :
    (∀ n : Int, ((get_visitors f db).2 = ⟨200, .count n⟩ ↔
      (increment_and_get_count f db).2 = .ok n)) ∧
    ((get_visitors f db).2 = ⟨500, .error "Unable to read visitor count"⟩ ↔
      ∃ e, (increment_and_get_count f db).2 = .error e) ∧
    (∀ n : Int, ((reset_visitors f db).2 = ⟨200, .count n⟩ ↔
      (reset_count f db).2 = .ok n)) ∧
    ((reset_visitors f db).2 = ⟨500, .error "Unable to reset visitor count"⟩ ↔
      ∃ e, (reset_count f db).2 = .error e) ∧
    (∀ n : Int, (reset_count f db).2 = .ok n → n = 0) ∧
    ((get_visitors f db).2.status = 200 ∨ (get_visitors f db).2.status = 500) ∧
    ((reset_visitors f db).2.status = 200 ∨ (reset_visitors f db).2.status = 500) := by
  rcases hi : increment_and_get_count f db with ⟨db1, r1⟩
  rcases hr : reset_count f db with ⟨db2, r2⟩
  have hr0 : ∀ n : Int, r2 = .ok n → n = 0 := by
    intro n hn
    obtain ⟨fc, fu, fm, fs⟩ := f
    obtain ⟨t, rw⟩ := db
    cases fc <;> cases fu <;> cases fm <;> cases fs <;> cases t <;> cases rw <;>
      simp_all [reset_count]
  cases r1 <;> cases r2 <;>
    simp_all [get_visitors, reset_visitors, hi, hr]

/-- C7 (amended): a failing reset_count never changes the stored state, and
a failing increment_and_get_count leaves the stored state unchanged when
the failure strikes at or before its commit (connection, UPDATE, COMMIT, or
the missing-row TypeError); but the code commits the increment before the
read-back SELECT, so when that read-back fails the caller observes an error
while the increment is already durably committed. -/
theorem store_failure_state (f : Faults) (db : DB) :
    ((∃ e, (reset_count f db).2 = .error e) → (reset_count f db).1 = db) ∧
    (f.failSelect = false → (∃ e, (increment_and_get_count f db).2 = .error e) →
      (increment_and_get_count f db).1 = db) ∧
    ((∃ e, (increment_and_get_count f db).2 = .error e) →
      (increment_and_get_count f db).1 = db ∨
      (increment_and_get_count f db).1 = { db with row := db.row.map (fun c => c + 1) }) := by
  obtain ⟨fc, fu, fm, fs⟩ := f
  obtain ⟨t, r⟩ := db
  cases fc <;> cases fu <;> cases fm <;> cases fs <;> cases t <;> cases r <;>
    simp [reset_count, increment_and_get_count]

/-- C7 as stated fails on the code: when the read-back SELECT of
increment_and_get_count raises (all earlier steps having succeeded) on a
store holding 5, the caller observes a storage error and yet the stored
count has durably moved to 6 — a committed write is left behind. -/
theorem store_failure_state_cex :
    (increment_and_get_count ⟨false, false, false, true⟩ ⟨true, some 5⟩).2 =
      .error .storage ∧
    (increment_and_get_count ⟨false, false, false, true⟩ ⟨true, some 5⟩).1.row = some 6 := by
  refine ⟨by decide, by decide⟩

/-- C8: with the table present but the counter row absent, every
increment_and_get_count call raises — on the fault-free path specifically
the TypeError from subscripting the `None` fetched after its UPDATE matched
no row — so GET /api/visitors answers 500 with the generic error body, and
the call never creates the missing row. -/
theorem missing_row_get (f : Faults) (db : DB) (ht : db.tableExists = true)
    (hr : db.row = none) :
    (increment_and_get_count noFaults db).2 = .error .typeErr ∧
    (∃ e, (increment_and_get_count f db).2 = .error e) ∧
    (get_visitors f db).2 = ⟨500, .error "Unable to read visitor count"⟩ ∧
    (get_visitors f db).1.row = none := by
  obtain ⟨fc, fu, fm, fs⟩ := f
  obtain ⟨t, r⟩ := db
  simp only at ht hr
  subst ht
  subst hr
  cases fc <;> cases fu <;> cases fm <;> cases fs <;>
    simp [increment_and_get_count, get_visitors, noFaults]

/-- Witness: C8 at the concrete row-less store. -/
theorem missing_row_get_witness :
    (increment_and_get_count noFaults ⟨true, none⟩).2 = .error .typeErr ∧
    (∃ e, (increment_and_get_count noFaults ⟨true, none⟩).2 = .error e) ∧
    (get_visitors noFaults ⟨true, none⟩).2 = ⟨500, .error "Unable to read visitor count"⟩ ∧
    (get_visitors noFaults ⟨true, none⟩).1.row = none :=
  missing_row_get noFaults ⟨true, none⟩ rfl rfl

/-- C9: with the table present but the counter row absent, the fault-free
reset_count still succeeds with the literal 0 — its UPDATE silently matched
no row and nothing is read back — so POST /api/reset answers 200 with
count 0 while the store still has no row (nothing was written). -/
theorem missing_row_reset (db : DB) (ht : db.tableExists = true) (hr : db.row = none) :
    reset_count noFaults db = (db, .ok 0) ∧
    reset_visitors noFaults db = (db, ⟨200, .count 0⟩) ∧
    (reset_visitors noFaults db).1.row = none := by
  obtain ⟨t, r⟩ := db
  simp only at ht hr
  subst ht
  subst hr
  refine ⟨by decide, by decide, by decide⟩

/-- Witness: C9 at the concrete row-less store. -/
theorem missing_row_reset_witness :
    reset_count noFaults ⟨true, none⟩ = (⟨true, none⟩, .ok 0) ∧
    reset_visitors noFaults ⟨true, none⟩ = (⟨true, none⟩, ⟨200, .count 0⟩) ∧
    (reset_visitors noFaults ⟨true, none⟩).1.row = none :=
  missing_row_reset ⟨true, none⟩ rfl rfl

/-- C10: the home handler is read-only and deterministic — it returns the
database untouched, always answers 200 with the Content-Type header
text/html; charset=utf-8 and the fixed template body, and two calls at any
two database states produce the identical response. -/
theorem home_pure (db db' : DB) :
    (home db).1 = db ∧
    (home db).2 = ⟨200, "text/html; charset=utf-8", HOME_TEMPLATE⟩ ∧
    (home db).2 = (home db').2 :=
  ⟨rfl, rfl, rfl⟩
